import Mathlib

/-!
Verification of the `otelrandom` instrumentation package.

The repository contains two snapshots of the same Go package:

* `src/unnamed/part_002` — the most complete variant: the instrumented
  `Intn` additionally spawns a fire-and-forget goroutine creating a linked
  "AsyncSpan", and the tracer provider is resolved in `NewRandomGenerator`.
  It is embedded below in namespace `Otelrandom`.
* `src/instrumentation/github.com/lumigo-io/otelrandom/otelrandom.go` —
  a variant without the async span, where `Intn` resolves the tracer
  provider at call time through `config.GetTracerProvider`.  It is
  embedded in namespace `Otelrandom.Alt`.

Modelling conventions:

* A Go `trace.TracerProvider` is identified by a natural number; the
  process-wide default provider (`otel.GetTracerProvider()`) is passed in
  explicitly as a `globalTracerProvider : Nat` argument wherever the Go
  code reads the global.
* A `context.Context` is a carrier of request-scoped key/value pairs plus
  an optional current span context; `Tracer.Start` derives a child carrier
  that differs only in the current span context.
* Fresh span identifiers come from an explicit `TraceState` counter that
  is threaded through the computation.
* The wrapped generator is modelled as `Context → Int → Except String Int`
  where `Except.error msg` stands for the call panicking with `msg`; Go's
  `defer span.End()` runs on both the normal and the panicking exit path,
  which the embedding makes explicit by ending the span on both paths.
* Go `float64` CPU times are modelled by exact rationals (`Rat`); the
  claims about them are structural (which value is attached, error
  handling), not about rounding.
* `json.Marshal` is modelled on the values that can reach it here: Go
  `int` values (whose encoding is their decimal notation and never fails)
  and a representative unsupported value (a channel), for which Go's
  encoder returns an `UnsupportedTypeError`.
-/

namespace Otelrandom

/-- One span/trace identifier pair (`trace.SpanContext`). -/
structure SpanContext where
  traceID : Nat
  spanID : Nat
deriving DecidableEq, Repr

/-- A `context.Context`: caller-attached request-scoped values plus the
current span context (what `trace.ContextWithSpan` embeds). -/
structure Context where
  values : List (String × String)
  spanCtx : Option SpanContext
deriving DecidableEq, Repr

/-- An `attribute.Key`. -/
structure Key where
  name : String
deriving DecidableEq, Repr

/-- An attribute value (`attribute.Value`): the three kinds used by the
package. `float64Value` carries an exact rational standing for `float64`. -/
inductive Value where
  | stringValue (s : String)
  | intValue (n : Int)
  | float64Value (q : Rat)
deriving DecidableEq, Repr

/-- An `attribute.KeyValue`. -/
structure KeyValue where
  key : Key
  value : Value
deriving DecidableEq, Repr

/-- Modelling `attribute.Key.String`. -/
def Key.String (k : Key) (v : String) : KeyValue :=
  { key := k, value := Value.stringValue v }

/-- Modelling `attribute.Key.Int`. -/
def Key.Int (k : Key) (v : Int) : KeyValue :=
  { key := k, value := Value.intValue v }

/-- Modelling `attribute.Key.Float64`. -/
def Key.Float64 (k : Key) (v : Rat) : KeyValue :=
  { key := k, value := Value.float64Value v }

/-- `Payload` is the JSON serialised content of the captured input payload. -/
def Payload : Key := { name := "method.payload" }

/-- `PayloadSize` is the `Payload` bytes size. -/
def PayloadSize : Key := { name := "method.payload.size" }

/-- `ProcessCPUTime` is the total cpu time for the current process. -/
def ProcessCPUTime : Key := { name := "process.cpu.time" }

/-- The `tracerName` constant of `part_002`. -/
def tracerName : String :=
  "opentelemetry-go-contrib/instrumentation/github.com/lumigo-io/otelrandom/RandomGenerator"

/-- The `traceVersion` constant of `part_002`. -/
def traceVersion : String := "0.0.1"

/-- A `trace.Tracer` handle: the provider it came from, its name and its
instrumentation version. -/
structure Tracer where
  provider : Nat
  name : String
  version : String
deriving DecidableEq, Repr

/-- A `trace.Span` as far as this package observes it: its name, its own
identifier pair, its parent's identifier pair (if any), its links, its
attributes, how many times `End` was called on it, and the tracer that
created it. -/
structure Span where
  name : String
  sctx : SpanContext
  parent : Option SpanContext
  links : List SpanContext
  attrs : List KeyValue
  endCount : Nat
  tracer : Tracer
deriving DecidableEq, Repr

/-- Modelling `span.SetAttributes`: appends the given key/values. -/
def Span.SetAttributes (s : Span) (kvs : List KeyValue) : Span :=
  { s with attrs := s.attrs ++ kvs }

/-- Modelling `span.End`: marks the end of the span. `endCount` counts how
many times the end time was set. -/
def Span.End (s : Span) : Span :=
  { s with endCount := s.endCount + 1 }

/-- The mutable state of the tracing subsystem that matters here: a
counter supplying fresh span identifiers. -/
structure TraceState where
  nextID : Nat
deriving DecidableEq, Repr

/-- Result of `Tracer.Start`: the updated trace state, the derived
context carrier embedding the new span, and the new span handle. -/
structure StartResult where
  st : TraceState
  ctx : Context
  span : Span
deriving DecidableEq, Repr

/-- Modelling `tracer.Start(ctx, name, opts...)`: allocates a fresh span
identifier, parents the new span under the span context already present
in `ctx` (continuing its trace), records the requested links, and returns
the carrier derived from `ctx` by embedding the new span. -/
def Tracer.Start (t : Tracer) (st : TraceState) (ctx : Context) (name : String)
    (links : List SpanContext) : StartResult :=
  let sid := st.nextID
  let tid := match ctx.spanCtx with
    | some parent => parent.traceID
    | none => st.nextID
  let sc : SpanContext := { traceID := tid, spanID := sid }
  { st := { nextID := st.nextID + 1 }
    ctx := { ctx with spanCtx := some sc }
    span := { name := name, sctx := sc, parent := ctx.spanCtx, links := links,
              attrs := [], endCount := 0, tracer := t } }

/-- A Go value passed as the `payload any` argument of
`payloadAttributes`.  In this package only Go `int` values reach it; the
channel constructor stands for a value `encoding/json` cannot encode. -/
inductive GoValue where
  | int (n : Int)
  | chanValue
deriving DecidableEq, Repr

/-- Modelling `json.Marshal` on the values above: a Go `int` encodes to
its decimal notation and never fails; a channel makes `Marshal` return an
`UnsupportedTypeError`. -/
def jsonMarshal : GoValue → Except String String
  | GoValue.int n => Except.ok (toString n)
  | GoValue.chanValue => Except.error "json: unsupported type: chan int"

/-- One element of the `cpu.Times(false)` result; only the fields the
package reads (`User` and `System`, in CPU seconds) are modelled. -/
structure TimesStat where
  user : Rat
  system : Rat
deriving DecidableEq, Repr

/-- The `config` struct of `part_002`: the provider override (if any) and
the tracer built by `NewRandomGenerator`. -/
structure Config where
  TracerProvider : Option Nat
  Tracer : Tracer

/-- The `randomGeneratorInstrument` struct of `part_002`: the embedded
wrapped `RandomGenerator` and the configuration.  The wrapped generator is
any Go implementation of the interface, so besides returning an `Int` it
may also panic, modelled by `Except.error`. -/
structure randomGeneratorInstrument where
  RandomGenerator : Context → Int → Except String Int
  config : Config

/-- The `Option` values of `part_002` (`type Option interface{ configure(*config) }`,
with `optionFunc` as its only implementation): a configuration transformer. -/
def Opt : Type := Config → Config

/-- Modelling `optionFunc.configure`. -/
def Opt.configure (o : Opt) (c : Config) : Config := o c

/-- Modelling `WithTracerProvider` of `part_002`: sets the provider
override in the configuration. -/
def WithTracerProvider (tp : Nat) : Opt :=
  fun c => { c with TracerProvider := some tp }

/-- Modelling `NewRandomGenerator` of `part_002`: applies the options,
falls back to the process-wide default provider (`otel.GetTracerProvider()`,
read HERE, at construction time, and passed in as `globalTracerProvider`)
when no override was configured, and builds the tracer once. -/
def NewRandomGenerator (rnd : Context → Int → Except String Int)
    (opts : List Opt) (globalTracerProvider : Nat) : randomGeneratorInstrument :=
  let cfg := opts.foldl (fun c opt => opt.configure c)
    { TracerProvider := none, Tracer := { provider := 0, name := "", version := "" } }
  let tp := match cfg.TracerProvider with
    | some tp => tp
    | none => globalTracerProvider
  { RandomGenerator := rnd
    config := { TracerProvider := some tp
                Tracer := { provider := tp, name := tracerName, version := traceVersion } } }

/-- Modelling `randomGeneratorInstrument.payloadAttributes` of `part_002`:
JSON-encode the payload; on failure return no attributes (and raise no
error); on success return the payload string and its byte size. -/
def randomGeneratorInstrument.payloadAttributes (_ : randomGeneratorInstrument)
    (payload : GoValue) : List KeyValue :=
  match jsonMarshal payload with
  | Except.error _ => []
  | Except.ok payloadValue =>
    [ Payload.String payloadValue,
      PayloadSize.Int (Int.ofNat payloadValue.utf8ByteSize) ]

/-- Modelling `randomGeneratorInstrument.profilingAttributes` of
`part_002`: `cpu.Times(false)` is an external query whose outcome is the
`cpuTimes` argument; on failure return no attributes (and raise no error);
on success return the accumulated user+system total. -/
def randomGeneratorInstrument.profilingAttributes (_ : randomGeneratorInstrument)
    (cpuTimes : Except String (List TimesStat)) : List KeyValue :=
  match cpuTimes with
  | Except.error _ => []
  | Except.ok times =>
    let total := times.foldl (fun total tm => total + (tm.user + tm.system)) 0
    [ ProcessCPUTime.Float64 total ]

/-- Modelling `randomGeneratorInstrument.exampleAsyncSpan` of `part_002`:
starts (and ends) the "AsyncSpan" from the ORIGINAL root context, with a
single link to the given span context.  In the program it runs in a
goroutine; since it only creates its own span and the claims about it are
schedule-independent, it is evaluated at its spawn point. -/
def randomGeneratorInstrument.exampleAsyncSpan (i : randomGeneratorInstrument)
    (st : TraceState) (rootContext : Context) (spanToLink : SpanContext) : StartResult :=
  let r := i.config.Tracer.Start st rootContext "AsyncSpan" [spanToLink]
  { r with span := r.span.End }

/-- Everything one call of the instrumented `Intn` of `part_002` produced:
the returned value (or propagated panic), the final primary span, the
final async span, the carrier passed to the wrapped generator, and the
final trace state. -/
structure IntnResult where
  ret : Except String Int
  primary : Span
  async : Span
  genCtx : Context
  st : TraceState

/-- Modelling `randomGeneratorInstrument.Intn` of `part_002`.  Steps, in
source order: start the primary span from `ctx`; attach payload then
profiling attributes; spawn `go i.exampleAsyncSpan(ctx, span.SpanContext())`
(the arguments — the ORIGINAL `ctx` and the primary span's identifier
pair — are evaluated at the spawn point, before delegation); delegate to
the wrapped generator with the derived carrier `spanCtx`; the deferred
`span.End()` runs on every exit path, whether delegation returns or
panics, before the result (or panic) reaches the caller. -/
def randomGeneratorInstrument.Intn (i : randomGeneratorInstrument)
    (st : TraceState) (ctx : Context) (n : Int)
    (cpuTimes : Except String (List TimesStat)) : IntnResult :=
  let r1 := i.config.Tracer.Start st ctx "RandomGenerator.Intn" []
  let spanCtx := r1.ctx
  let span1 := r1.span.SetAttributes (i.payloadAttributes (GoValue.int n))
  let span2 := span1.SetAttributes (i.profilingAttributes cpuTimes)
  let r2 := i.exampleAsyncSpan r1.st ctx span2.sctx
  let ret := i.RandomGenerator spanCtx n
  let spanFinal := span2.End
  { ret := ret, primary := spanFinal, async := r2.span, genCtx := spanCtx, st := r2.st }

end Otelrandom

namespace Otelrandom.Alt

/-!
Embedding of the `otelrandom.go` variant
(`src/instrumentation/github.com/lumigo-io/otelrandom/otelrandom.go`).
It shares the attribute keys and the tracing-API model with the
`part_002` embedding above.  Differences from `part_002`: no async span,
the configuration holds name formatters instead of a prebuilt tracer, and
`Intn` resolves the tracer provider at call time through
`config.GetTracerProvider`.
-/

/-- The `config` struct of `otelrandom.go`. -/
structure Config where
  TracerProvider : Option Nat
  TracerNameFormatter : Option (String → String)
  SpanNameFormatter : Option (String → String)

/-- Modelling `config.GetTracerProvider` of `otelrandom.go`: the override
if present, otherwise the process-wide default provider
(`otel.GetTracerProvider()`, read at the moment of the call and passed in
as `globalTracerProvider`). -/
def Config.GetTracerProvider (c : Config) (globalTracerProvider : Nat) : Nat :=
  match c.TracerProvider with
  | some tp => tp
  | none => globalTracerProvider

/-- Modelling `config.TracerName` of `otelrandom.go`. -/
def Config.TracerName (c : Config) (name : String) : String :=
  match c.TracerNameFormatter with
  | some f => f name
  | none => name

/-- Modelling `config.SpanName` of `otelrandom.go`. -/
def Config.SpanName (c : Config) (name : String) : String :=
  match c.SpanNameFormatter with
  | some f => f name
  | none => name

/-- The `RandomGeneratorInstrument` struct of `otelrandom.go`. -/
structure RandomGeneratorInstrument where
  RandomGenerator : Context → Int → Except String Int
  config : Config

/-- The `Option` values of `otelrandom.go`. -/
def Opt : Type := Config → Config

/-- Modelling `optionFunc.configure` of `otelrandom.go`. -/
def Opt.configure (o : Opt) (c : Config) : Config := o c

/-- Modelling `WithTracerProvider` of `otelrandom.go`. -/
def WithTracerProvider (tp : Nat) : Opt :=
  fun c => { c with TracerProvider := some tp }

/-- Modelling `NewRandomGenerator` of `otelrandom.go`: only applies the
options; the tracer provider is NOT resolved here. -/
def NewRandomGenerator (rnd : Context → Int → Except String Int)
    (opts : List Opt) : RandomGeneratorInstrument :=
  let cfg := opts.foldl (fun c opt => opt.configure c)
    { TracerProvider := none, TracerNameFormatter := none, SpanNameFormatter := none }
  { RandomGenerator := rnd, config := cfg }

/-- Modelling `RandomGeneratorInstrument.payloadAttributes` of
`otelrandom.go` (same body as in `part_002`). -/
def RandomGeneratorInstrument.payloadAttributes (_ : RandomGeneratorInstrument)
    (payload : GoValue) : List KeyValue :=
  match jsonMarshal payload with
  | Except.error _ => []
  | Except.ok payloadValue =>
    [ Payload.String payloadValue,
      PayloadSize.Int (Int.ofNat payloadValue.utf8ByteSize) ]

/-- Modelling `RandomGeneratorInstrument.profilingAttributes` of
`otelrandom.go` (same body as in `part_002`). -/
def RandomGeneratorInstrument.profilingAttributes (_ : RandomGeneratorInstrument)
    (cpuTimes : Except String (List TimesStat)) : List KeyValue :=
  match cpuTimes with
  | Except.error _ => []
  | Except.ok times =>
    let total := times.foldl (fun total tm => total + (tm.user + tm.system)) 0
    [ ProcessCPUTime.Float64 total ]

/-- Result of one call of the instrumented `Intn` of `otelrandom.go`
(no async span in this variant). -/
structure IntnResult where
  ret : Except String Int
  primary : Span
  genCtx : Context
  st : TraceState

/-- Modelling `RandomGeneratorInstrument.Intn` of `otelrandom.go`: the
tracer is obtained from `i.config.GetTracerProvider()` AT CALL TIME
(`globalTracerProvider` is the process-wide default provider at the
moment of this call); then the span is started, attributes attached, and
the call delegated with the derived carrier; the deferred `span.End()`
runs on every exit path. -/
def RandomGeneratorInstrument.Intn (i : RandomGeneratorInstrument)
    (globalTracerProvider : Nat) (st : TraceState) (ctx : Context) (n : Int)
    (cpuTimes : Except String (List TimesStat)) : IntnResult :=
  let tracer : Tracer :=
    { provider := i.config.GetTracerProvider globalTracerProvider,
      name := i.config.TracerName "RandomGenerator", version := "" }
  let r1 := tracer.Start st ctx (i.config.SpanName "RandomGenerator.Intn") []
  let span1 := r1.span.SetAttributes (i.payloadAttributes (GoValue.int n))
  let span2 := span1.SetAttributes (i.profilingAttributes cpuTimes)
  let ret := i.RandomGenerator r1.ctx n
  let spanFinal := span2.End
  { ret := ret, primary := spanFinal, genCtx := r1.ctx, st := r1.st }

end Otelrandom.Alt

namespace Otelrandom

/-! ### Concrete fixtures used by witnesses and counterexamples -/

/-- A stub wrapped generator that always returns `7` (the spec's example
scenario). -/
def genStub : Context → Int → Except String Int := fun _ _ => Except.ok 7

/-- A concrete incoming carrier with one caller-attached value and no
active span. -/
def ctxStub : Context := { values := [("tenant", "acme")], spanCtx := none }

/-- A concrete initial trace state. -/
def stStub : TraceState := { nextID := 0 }

/-- A concrete successful `cpu.Times(false)` outcome. -/
def cpuStub : Except String (List TimesStat) := Except.ok []

/-- A concrete instrument built while the process-wide default tracer
provider was provider `0`, with no options. -/
def instStub : randomGeneratorInstrument := NewRandomGenerator genStub [] 0

/-- Helper: folding `acc + f x` over a list starting from `a` yields `a`
plus the sum of the mapped list. -/
theorem foldl_add_eq_add_sum (f : TimesStat → Rat) (l : List TimesStat) (a : Rat) :
    l.foldl (fun acc tm => acc + f tm) a = a + (l.map f).sum := by
  induction l generalizing a with
  | nil => simp
  | cons hd tl ih => simp [List.foldl_cons, ih, List.sum_cons]; ring

/-! ### Claims -/

/-- C1: for every context carrier and every integer `n`, the instrumented
`Intn` returns exactly what the wrapped `RandomGenerator`'s `Intn`
produces when invoked with the derived (span-embedding) carrier and the
same `n`; the wrapper never transforms the return value.  The derived
carrier is pinned down explicitly: the incoming values with the primary
span embedded. -/
theorem intn_pass_through (i : randomGeneratorInstrument) (st : TraceState)
    (ctx : Context) (n : Int) (cpuTimes : Except String (List TimesStat)) :
    (i.Intn st ctx n cpuTimes).ret
        = i.RandomGenerator (i.Intn st ctx n cpuTimes).genCtx n
      ∧ (i.Intn st ctx n cpuTimes).genCtx
        = { values := ctx.values, spanCtx := some (i.Intn st ctx n cpuTimes).primary.sctx } :=
  ⟨rfl, rfl⟩

/-- C2: the concurrently launched unit of work (`exampleAsyncSpan`)
starts its span from the ORIGINAL incoming carrier — its parent is the
span context of the call's input `ctx`, not the primary span — and that
span carries exactly one link, whose target is the primary span's
identifier pair, captured (as the `go` statement's argument) before the
concurrent unit is spawned. -/
theorem async_span_parent_and_single_link (i : randomGeneratorInstrument)
    (st : TraceState) (ctx : Context) (n : Int)
    (cpuTimes : Except String (List TimesStat)) :
    (i.Intn st ctx n cpuTimes).async.parent = ctx.spanCtx
      ∧ (i.Intn st ctx n cpuTimes).async.links
        = [(i.Intn st ctx n cpuTimes).primary.sctx] :=
  ⟨rfl, rfl⟩

/-- C3 counterexample: in the `part_002` variant, the process-wide default
tracer provider is NOT read at call time.  Concretely: `instStub` is
constructed with no override while the process-wide provider is provider
`0`; afterwards, before the first call, the process-wide provider is
changed to provider `1`; the call's primary span still uses provider `0`
— `Intn` takes no notice of the process-wide provider at all (it uses the
tracer built at construction), so the change does not take effect, contrary
to the claim. -/
theorem provider_change_after_construction_ignored_cex :
    ¬ ((instStub.Intn stStub ctxStub 5 cpuStub).primary.tracer.provider = 1) := by
  decide

/-- C3 amended: in the variant with the async linked span (`part_002`),
the process-wide default provider is resolved once, at CONSTRUCTION time:
when `NewRandomGenerator` runs without an override while the process-wide
provider is `g`, every later call's primary span uses `g`, whatever the
process-wide provider has become.  In the `otelrandom.go` variant
(`RandomGeneratorInstrument`), the claim holds as stated: the provider is
resolved at call time through `config.GetTracerProvider`, so a call made
while the process-wide provider is `g` uses `g`. -/
theorem provider_resolution_amended :
    (∀ (g : Nat) (rnd : Context → Int → Except String Int) (st : TraceState)
        (ctx : Context) (n : Int) (cpuTimes : Except String (List TimesStat)),
      ((NewRandomGenerator rnd [] g).Intn st ctx n cpuTimes).primary.tracer.provider = g)
    ∧ (∀ (g : Nat) (rnd : Context → Int → Except String Int) (st : TraceState)
        (ctx : Context) (n : Int) (cpuTimes : Except String (List TimesStat)),
      ((Alt.NewRandomGenerator rnd []).Intn g st ctx n cpuTimes).primary.tracer.provider = g) :=
  ⟨fun _ _ _ _ _ _ => rfl, fun _ _ _ _ _ _ => rfl⟩

/-- C4: for every integer `n` whose JSON encoding succeeds (producing
`s`), the primary span's attribute set contains the payload attribute
with string value exactly `s` and the payload-size attribute with integer
value exactly the byte length of `s`. -/
theorem payload_attributes_attached (i : randomGeneratorInstrument)
    (st : TraceState) (ctx : Context) (n : Int)
    (cpuTimes : Except String (List TimesStat)) (s : String)
    (h : jsonMarshal (GoValue.int n) = Except.ok s) :
    Payload.String s ∈ (i.Intn st ctx n cpuTimes).primary.attrs
      ∧ PayloadSize.Int (Int.ofNat s.utf8ByteSize)
        ∈ (i.Intn st ctx n cpuTimes).primary.attrs := by
  constructor <;>
    simp [randomGeneratorInstrument.Intn, Span.SetAttributes, Span.End,
      randomGeneratorInstrument.payloadAttributes, h]

/-- C4 witness: the spec's example scenario `n = 42`: the encoding is
`"42"` and both attributes are attached. -/
theorem payload_attributes_attached_witness :
    jsonMarshal (GoValue.int 42) = Except.ok "42"
      ∧ (Payload.String "42" ∈ (instStub.Intn stStub ctxStub 42 cpuStub).primary.attrs
        ∧ PayloadSize.Int (Int.ofNat ("42".utf8ByteSize))
          ∈ (instStub.Intn stStub ctxStub 42 cpuStub).primary.attrs) :=
  ⟨rfl, payload_attributes_attached instStub stStub ctxStub 42 cpuStub "42" rfl⟩

/-- C5: the primary span's end time is set exactly once on every exit
path of the call.  The first conjunct quantifies over every wrapped
generator, including ones that panic (`Except.error`); the second makes
the panicking exit path explicit: even when the wrapped operation panics
with an arbitrary message, the deferred `span.End()` has run exactly once
by the time the panic reaches the caller. -/
theorem primary_span_ended_exactly_once (i : randomGeneratorInstrument)
    (st : TraceState) (ctx : Context) (n : Int)
    (cpuTimes : Except String (List TimesStat)) (msg : String) :
    (i.Intn st ctx n cpuTimes).primary.endCount = 1
      ∧ (({ RandomGenerator := fun _ _ => Except.error msg, config := i.config } :
            randomGeneratorInstrument).Intn st ctx n cpuTimes).primary.endCount = 1 :=
  ⟨rfl, rfl⟩

/-- C6: for every payload whose JSON encoding fails, `payloadAttributes`
returns no attributes at all — in particular neither the payload nor the
payload-size attribute — and, being a total function, raises nothing to
the caller. -/
theorem payload_attributes_omitted_on_marshal_failure (i : randomGeneratorInstrument)
    (payload : GoValue) (e : String)
    (h : jsonMarshal payload = Except.error e) :
    i.payloadAttributes payload = [] := by
  simp [randomGeneratorInstrument.payloadAttributes, h]

/-- C6 witness: a channel value, which `json.Marshal` rejects with an
`UnsupportedTypeError`: the attribute list is empty. -/
theorem payload_attributes_omitted_on_marshal_failure_witness :
    jsonMarshal GoValue.chanValue = Except.error "json: unsupported type: chan int"
      ∧ instStub.payloadAttributes GoValue.chanValue = [] :=
  ⟨rfl, payload_attributes_omitted_on_marshal_failure instStub GoValue.chanValue
    "json: unsupported type: chan int" rfl⟩

/-- C7: when the process CPU-time query fails, `profilingAttributes`
returns no attributes (and raises nothing to the caller); when it
succeeds, the single attached value is exactly the sum of user and system
time over all returned reporting units. -/
theorem profiling_attributes_spec :
    (∀ (i : randomGeneratorInstrument) (e : String),
      i.profilingAttributes (Except.error e) = [])
    ∧ (∀ (i : randomGeneratorInstrument) (times : List TimesStat),
      i.profilingAttributes (Except.ok times)
        = [ ProcessCPUTime.Float64 ((times.map fun tm => tm.user + tm.system).sum) ]) := by
  constructor
  · intro i e
    rfl
  · intro i times
    show [ ProcessCPUTime.Float64
        (times.foldl (fun total tm => total + (tm.user + tm.system)) 0) ] = _
    rw [foldl_add_eq_add_sum (fun tm => tm.user + tm.system) times 0, zero_add]

/-- C8: when a provider override is supplied through `WithTracerProvider`
at construction, the configured tracer, the primary span and the async
span all use that provider `tp`, for EVERY value `g` of the process-wide
default provider — so the default is never consulted, no matter what it
is. -/
theorem tracer_provider_override_precedence (tp g : Nat)
    (rnd : Context → Int → Except String Int) (st : TraceState) (ctx : Context)
    (n : Int) (cpuTimes : Except String (List TimesStat)) :
    (NewRandomGenerator rnd [WithTracerProvider tp] g).config.Tracer.provider = tp
      ∧ ((NewRandomGenerator rnd [WithTracerProvider tp] g).Intn st ctx n
          cpuTimes).primary.tracer.provider = tp
      ∧ ((NewRandomGenerator rnd [WithTracerProvider tp] g).Intn st ctx n
          cpuTimes).async.tracer.provider = tp :=
  ⟨rfl, rfl, rfl⟩

/-- C9: the carrier the wrapped operation receives keeps every
caller-attached request-scoped value of the incoming carrier, unchanged;
the only difference is the embedded primary span. -/
theorem context_values_propagated (i : randomGeneratorInstrument)
    (st : TraceState) (ctx : Context) (n : Int)
    (cpuTimes : Except String (List TimesStat)) :
    (i.Intn st ctx n cpuTimes).genCtx.values = ctx.values
      ∧ (i.Intn st ctx n cpuTimes).genCtx.spanCtx
        = some (i.Intn st ctx n cpuTimes).primary.sctx :=
  ⟨rfl, rfl⟩

/-- C10: JSON-encoding a Go `int` never fails — it yields the decimal
notation — so the error branch of `payloadAttributes` is unreachable for
`Intn`'s argument, and the payload and payload-size attributes are
attached to the primary span on every call. -/
theorem int_payload_marshal_never_fails (n : Int) :
    jsonMarshal (GoValue.int n) = Except.ok (toString n)
      ∧ ∀ (i : randomGeneratorInstrument) (st : TraceState) (ctx : Context)
          (cpuTimes : Except String (List TimesStat)),
        Payload.String (toString n) ∈ (i.Intn st ctx n cpuTimes).primary.attrs
          ∧ PayloadSize.Int (Int.ofNat (toString n).utf8ByteSize)
            ∈ (i.Intn st ctx n cpuTimes).primary.attrs := by
  refine ⟨rfl, fun i st ctx cpuTimes => ?_⟩
  constructor <;>
    simp [randomGeneratorInstrument.Intn, Span.SetAttributes, Span.End,
      randomGeneratorInstrument.payloadAttributes, jsonMarshal]

end Otelrandom
